import Mathlib

/-!
# Verification of the mallob cube-and-conquer job runtime

Shallow embedding of the per-job runtime of the distributed SAT solving
engine: the cube worker solve loop (`src/app/sat/cube/cube_worker.cpp`),
the dynamic cube generator iteration
(`src/app/sat/cube/dynamic_cube_generator_thread.cpp`), the job lifecycle
and demand function (`src/app/job.cpp`), the cube SAT job initialization
flags and demand override (`src/app/sat/cube/base_cube_sat_job.cpp`) and
the effective priority computation of the submission adapter
(`src/data/job_file_adapter.cpp`).

Machine floats of the source are idealized as rationals and reals; solver
calls are abstracted as oracle functions supplied to the embedded code.
-/

/-! ## Cubes -/

/-- A cube: an ordered sequence of literals (a path from the decision
root), mirroring the `Cube` class (a wrapper around `vector<int>`). -/
structure Cube where
  path : List Int
deriving Repr, DecidableEq

/-- `getPath` accessor of the `Cube` class. -/
def Cube.getPath (c : Cube) : List Int := c.path

/-- Modelled from the spec: the source of the `Cube` class is not in the
repository snapshot (only its callers); the spec states `includes(other)`
returns true iff every literal of `other` appears in `self`. -/
def Cube.includes (self other : Cube) : Bool :=
  other.path.all (fun l => self.path.contains l)

/-- Modelled from to the spec: serialization of a list of cubes is a flat
integer stream in which each cube is terminated by a sentinel `0`
(`serializeCubes`, whose source file is not in the snapshot). -/
def serializeCubes (cubes : List Cube) : List Int :=
  (cubes.map (fun c => c.path ++ [0])).flatten

/-- Helper for `unserializeCubes`: accumulate literals of the current cube
until the sentinel `0`, then emit the cube. -/
def unserializeCubesAux : List Int → List Int → List Cube
  | [], _ => []
  | x :: rest, acc =>
      if x = 0 then ⟨acc⟩ :: unserializeCubesAux rest []
      else unserializeCubesAux rest (acc ++ [x])

/-- Modelled from the spec: `unserializeCubes` parses a flat integer
stream in which each cube is terminated by a sentinel `0` back into a
list of cubes. -/
def unserializeCubes (stream : List Int) : List Cube :=
  unserializeCubesAux stream []

/-! ## Solver adapter abstraction -/

/-- Result values of the solver adapter: `SAT = 10`, `UNSAT = 20`,
`UNKNOWN = 0` (the `SatResult` enum). -/
inductive SatResult where
  | SAT
  | UNSAT
  | UNKNOWN
deriving Repr, DecidableEq

/-- Outcome of one `solve(assumptions)` call of the incremental solver
together with the failed assumptions that `getFailedAssumptions()` would
report afterwards (meaningful for `UNSAT`). -/
inductive SolverOutcome where
  | sat
  | unknown
  | unsat (failedAssumptions : List Int)
deriving Repr, DecidableEq

/-! ## Cube worker (`CubeWorker::solve`, cube_worker.cpp) -/

/-- Worker states of `CubeWorker` (the `WorkerState` enum). -/
inductive WorkerState where
  | IDLING
  | WAITING
  | REQUESTING
  | WORKING
  | RETURNING
  | SOLVED
  | FAILED
deriving Repr, DecidableEq

/-- The mutable fields of `CubeWorker` that `solve` reads and writes:
`_worker_state`, `_result` and `_failed_cubes`. -/
structure WorkerSt where
  worker_state : WorkerState
  result : SatResult
  failed_cubes : List Cube
deriving Repr, DecidableEq

namespace CubeWorker

/-- `CubeWorker::includesFailedCube`: whether the given cube includes
some already-known failed cube. -/
def includesFailedCube (failed_cubes : List Cube) (cube : Cube) : Bool :=
  failed_cubes.any (fun failed_cube => cube.includes failed_cube)

/-- `CubeWorker::solve`: iterate over the local cubes; skip a cube that
includes a known failed cube; otherwise consult the solver on the cube's
path. `SAT` sets the result and `SOLVED`; `UNKNOWN` returns with the
state unchanged; `UNSAT` with a nonempty failed-assumption set appends it
to the failed cubes and continues; `UNSAT` with an empty set sets the
result `UNSAT` and `SOLVED`. After the whole list, the state becomes
`FAILED`. The solver is abstracted as a function from the assumed path to
the outcome of the call. -/
def solve (solver : List Int → SolverOutcome) :
    List Cube → WorkerSt → WorkerSt
  | [], st => { st with worker_state := WorkerState.FAILED }
  | next_local_cube :: rest, st =>
      if includesFailedCube st.failed_cubes next_local_cube then
        solve solver rest st
      else
        match solver next_local_cube.getPath with
        | SolverOutcome.sat =>
            { st with worker_state := WorkerState.SOLVED,
                      result := SatResult.SAT }
        | SolverOutcome.unknown => st
        | SolverOutcome.unsat failed_assumps =>
            if failed_assumps.length > 0 then
              solve solver rest
                { st with failed_cubes := st.failed_cubes ++ [⟨failed_assumps⟩] }
            else
              { st with worker_state := WorkerState.SOLVED,
                        result := SatResult.UNSAT }

end CubeWorker

/-! ## Dynamic cube generator (`DynamicCubeGeneratorThread::generate`) -/

/-- The mutable fields of `DynamicCubeGeneratorThread` that `generate`
writes: `_result`, `_split_literal` and `_failed`. -/
structure GenSt where
  result : SatResult
  split_literal : Int
  failed : Option (List Int)
deriving Repr, DecidableEq

namespace DynamicCubeGeneratorThread

/-- `DynamicCubeGeneratorThread::generate` for one iteration. Oracles:
`checkerResult` is the value of `_cube_checker.solve()` after assuming
the cube's path, `checkerFailed` is `_cube_checker.failed`; `look` is the
value of `_solver.lookahead()` after assuming the path, `interrupted` is
`_isInterrupted` at the zero-lookahead check, `finalStatus` is the value
of `_solver.status()` after the re-solve that the code performs when the
status is still `0`, and `solverFailed` is `_solver.failed`. The source
asserts `finalStatus ∈ {10, 20}` at that point; outside these two values
the embedding leaves the state unchanged (the assertion path). -/
def generate (cube : Option Cube) (checkerResult : Int)
    (checkerFailed : Int → Bool) (look : Int) (interrupted : Bool)
    (finalStatus : Int) (solverFailed : Int → Bool) (st : GenSt) : GenSt :=
  match cube with
  | none => st
  | some c =>
      let path := c.getPath
      if checkerResult = 0 then
        st
      else if checkerResult = 20 then
        let failed_assumptions := path.filter (fun l => checkerFailed l)
        if failed_assumptions.isEmpty then
          { st with result := SatResult.UNSAT }
        else
          { st with failed := some failed_assumptions }
      else
        let st1 := { st with split_literal := look }
        if look = 0 then
          if interrupted then st1
          else if finalStatus = 10 then
            { st1 with result := SatResult.SAT }
          else if finalStatus = 20 then
            let failed_assumptions := path.filter (fun l => solverFailed l)
            if failed_assumptions.length > 0 then
              { st1 with failed := some failed_assumptions }
            else
              { st1 with result := SatResult.UNSAT }
          else st1
        else st1

end DynamicCubeGeneratorThread

/-! ## Job state machine and demand function (`job.cpp`)

Machine floats (times, priorities) are idealized as rationals; the
floating-point `pow` of the continuous demand formula is idealized as real
exponentiation, with the C cast to `int` of its positive value embedded as
the integer floor. -/

/-- Lifecycle states of a job (the `JobState` enum). -/
inductive JobState where
  | INACTIVE
  | ACTIVE
  | SUSPENDED
  | STANDBY
  | PAST
deriving Repr, DecidableEq

/-- The fields of `JobDescription` that `Job::start` consumes from the
deserialized payload. -/
structure JobDescription where
  priority : ℚ
  maxDemand : Int
  numFormulaLiterals : Int
deriving Repr, DecidableEq

/-- The fields of `Job` (and its `JobTree`) that the embedded lifecycle
operations and the demand function read and write. `commSize` is
`_job_tree.getCommSize()`; `left_child` / `right_child` are the job
tree's child-rank slots; `solver_interrupted` records that the virtual
`appl_interrupt` hook was invoked. -/
structure Job where
  state : JobState
  commSize : Int
  growth_period : ℚ
  continuous_growth : Bool
  max_demand : Int
  time_of_activation : ℚ
  volume : Int
  priority : ℚ
  threads_per_job : Int
  has_description : Bool
  description : Option JobDescription
  left_child : Option Int
  right_child : Option Int
  solver_interrupted : Bool
deriving Repr, DecidableEq

namespace Job

/-- `Job::start`: asserts the `INACTIVE` state (embedded as `none` on
assertion failure), sets the activation time to the current time only
when it is not yet positive, sets `volume = 1`, deserializes the
description, takes the priority from it, tightens `_max_demand` with the
description's max demand, cuts down the thread count when the literal
threshold `sizeLimitPerProcess` is exceeded, and activates the job. -/
def start (sizeLimitPerProcess : Int) (j : Job) (d : JobDescription)
    (now : ℚ) : Option Job :=
  if j.state = JobState.INACTIVE then
    some { j with
      time_of_activation :=
        if j.time_of_activation ≤ 0 then now else j.time_of_activation,
      volume := 1,
      priority := d.priority,
      max_demand :=
        if d.maxDemand > 0 then
          if j.max_demand = 0 then d.maxDemand
          else min j.max_demand d.maxDemand
        else j.max_demand,
      threads_per_job :=
        if sizeLimitPerProcess > 0 ∧
            j.threads_per_job * d.numFormulaLiterals > sizeLimitPerProcess then
          max 1 (sizeLimitPerProcess / d.numFormulaLiterals)
        else j.threads_per_job,
      has_description := true,
      description := some d,
      state := JobState.ACTIVE }
  else none

/-- `Job::stop`: asserts `ACTIVE` and goes back to `INACTIVE`. -/
def stop (j : Job) : Option Job :=
  if j.state = JobState.ACTIVE then
    some { j with state := JobState.INACTIVE }
  else none

/-- `Job::suspend`: asserts `ACTIVE` (embedded as `none` on assertion
failure), moves to `SUSPENDED` and zeroes the volume. -/
def suspend (j : Job) : Option Job :=
  if j.state = JobState.ACTIVE then
    some { j with state := JobState.SUSPENDED, volume := 0 }
  else none

/-- `Job::interrupt`: asserts `ACTIVE` (embedded as `none` on assertion
failure), moves to `STANDBY`, invokes the solver interruption hook
`appl_interrupt` and unsets both job-tree child slots. -/
def interrupt (j : Job) : Option Job :=
  if j.state = JobState.ACTIVE then
    some { j with state := JobState.STANDBY,
                  solver_interrupted := true,
                  left_child := none,
                  right_child := none }
  else none

/-- `Job::getDemand`: when not `ACTIVE` the previous volume is returned
frozen. When `ACTIVE`: immediate full growth `commSize` for a
non-positive growth period; demand `1` when the activation time is not
yet positive; otherwise with `numPeriods = (t − t_activation) /
growth_period` the demand is `min(commSize, (1 << (⌊numPeriods⌋+1)) − 1)`
in discrete mode and `min(commSize, (int)pow(2, numPeriods+1) − 1)` in
continuous mode. A positive `_max_demand` finally clamps the demand. -/
noncomputable def getDemand (j : Job) (prevVolume : Int)
    (elapsedTime : ℚ) : Int :=
  if j.state = JobState.ACTIVE then
    let demand : Int :=
      if j.growth_period ≤ 0 then j.commSize
      else if j.time_of_activation ≤ 0 then 1
      else
        let t : ℚ := elapsedTime - j.time_of_activation
        let numPeriods : ℚ := t / j.growth_period
        if !j.continuous_growth then
          min j.commSize ((2 : Int) ^ (⌊numPeriods⌋ + 1).toNat - 1)
        else
          min j.commSize (⌊(2 : ℝ) ^ ((numPeriods : ℝ) + 1)⌋ - 1)
    if j.max_demand > 0 then min demand j.max_demand else demand
  else prevVolume

end Job

/-! ## Cube SAT job initialization flags (`base_cube_sat_job.cpp`) -/

/-- The flags of `BaseCubeSatJob` that govern the initialization /
interruption race: `_isInitialized`, `_abort_before_initialization`,
`_isDestructible`, plus a ghost flag recording whether the cube solving
library `_lib` has been constructed. -/
structure CubeJobFlags where
  isInitialized : Bool
  abort_before_initialization : Bool
  isDestructible : Bool
  libConstructed : Bool
deriving Repr, DecidableEq

namespace BaseCubeSatJob

/-- `BaseCubeSatJob::appl_interrupt` (under the initialization mutex):
when initialized it interrupts the library (no flag changes); otherwise
it sets the flag that aborts the subsequent initialization. -/
def appl_interrupt (f : CubeJobFlags) : CubeJobFlags :=
  if f.isInitialized then f
  else { f with abort_before_initialization := true }

/-- `BaseCubeSatJob::appl_initialize` (under the initialization mutex):
when the job was aborted before initialization, the library is never
constructed, the job is made destructible and `false` is returned;
otherwise the library is constructed, `_isInitialized` is set and `true`
is returned. -/
def appl_initialize (f : CubeJobFlags) : Bool × CubeJobFlags :=
  if f.abort_before_initialization then
    (false, { f with isDestructible := true })
  else
    (true, { f with libConstructed := true, isInitialized := true })

/-- `BaseCubeSatJob::appl_isDestructible`. -/
def appl_isDestructible (f : CubeJobFlags) : Bool :=
  f.isDestructible

/-- `BaseCubeSatJob::getDemand`: before the initialization has finished
the demand is overridden to `1`; afterwards it is the base class
`Job::getDemand`. -/
noncomputable def getDemand (f : CubeJobFlags) (j : Job) (prevVolume : Int)
    (elapsedTime : ℚ) : Int :=
  if !f.isInitialized then 1
  else j.getDemand prevVolume elapsedTime

end BaseCubeSatJob

/-! ## Effective job priority (`job_file_adapter.cpp`) -/

namespace JobFileAdapter

/-- The priority computation of `JobFileAdapter::handleNewJob`:
`priority = userPrio * (job file priority, defaulting to 1.0)`, then, when
priority jitter is enabled, `priority *= 0.99 + 0.01 * Random::rand()`
where `r` stands for the drawn random value. -/
def effectivePriority (userPrio : ℚ) (jobPrio : Option ℚ)
    (jitter : Bool) (r : ℚ) : ℚ :=
  let priority := userPrio * jobPrio.getD 1
  if jitter then priority * (99 / 100 + r / 100) else priority

end JobFileAdapter

/-! ## Concrete fixtures used by witnesses and counterexamples -/

/-- An `ACTIVE` job with the configuration of the spec's demand curve
scenario: `growth_period = 1`, continuous growth, `commSize = 100`,
`max_demand = 0`, activated at time `1`. -/
def demandJob : Job :=
  { state := JobState.ACTIVE
    commSize := 100
    growth_period := 1
    continuous_growth := true
    max_demand := 0
    time_of_activation := 1
    volume := 1
    priority := 1
    threads_per_job := 1
    has_description := true
    description := none
    left_child := none
    right_child := none
    solver_interrupted := false }

/-- The demand-curve job moved to `STANDBY`. -/
def standbyJob : Job := { demandJob with state := JobState.STANDBY }

/-- The demand-curve job moved to `SUSPENDED`. -/
def suspendedJob : Job := { demandJob with state := JobState.SUSPENDED }

/-- An `ACTIVE` job whose activation time is `5`. -/
def activeJob5 : Job := { demandJob with time_of_activation := 5 }

/-- A small job description. -/
def descr0 : JobDescription :=
  { priority := 2, maxDemand := 0, numFormulaLiterals := 3 }

/-- A never-activated `INACTIVE` job. -/
def freshJob : Job :=
  { demandJob with state := JobState.INACTIVE, time_of_activation := 0 }

/-! ## C1: the cube worker solve loop -/

/-- C1: in `CubeWorker::solve`, a cube including a known failed cube is
skipped without calling the solver; a `SAT` answer sets `result = SAT`
and state `SOLVED` and stops; `UNSAT` with a nonempty failed-assumption
set appends that set to the failed cubes and continues with the rest;
`UNSAT` with an empty set sets `result = UNSAT` and state `SOLVED` and
stops; `UNKNOWN` returns with the state unchanged; and an exhausted list
ends in state `FAILED`. -/
theorem cubeWorker_solve_spec (solver : List Int → SolverOutcome)
    (st : WorkerSt) (c : Cube) (rest : List Cube) (fa : List Int) :
    (CubeWorker.includesFailedCube st.failed_cubes c = true →
      CubeWorker.solve solver (c :: rest) st = CubeWorker.solve solver rest st)
    ∧ (CubeWorker.includesFailedCube st.failed_cubes c = false →
        solver c.getPath = SolverOutcome.sat →
        CubeWorker.solve solver (c :: rest) st =
          { st with worker_state := WorkerState.SOLVED,
                    result := SatResult.SAT })
    ∧ (CubeWorker.includesFailedCube st.failed_cubes c = false →
        solver c.getPath = SolverOutcome.unsat fa → fa ≠ [] →
        CubeWorker.solve solver (c :: rest) st =
          CubeWorker.solve solver rest
            { st with failed_cubes := st.failed_cubes ++ [⟨fa⟩] })
    ∧ (CubeWorker.includesFailedCube st.failed_cubes c = false →
        solver c.getPath = SolverOutcome.unsat [] →
        CubeWorker.solve solver (c :: rest) st =
          { st with worker_state := WorkerState.SOLVED,
                    result := SatResult.UNSAT })
    ∧ (CubeWorker.includesFailedCube st.failed_cubes c = false →
        solver c.getPath = SolverOutcome.unknown →
        CubeWorker.solve solver (c :: rest) st = st)
    ∧ CubeWorker.solve solver [] st =
        { st with worker_state := WorkerState.FAILED } := by
  refine ⟨?_, ?_, ?_, ?_, ?_, ?_⟩
  · intro h
    simp [CubeWorker.solve, h]
  · intro h1 h2
    simp [CubeWorker.solve, h1, h2]
  · intro h1 h2 h3
    have hl : fa.length > 0 := List.length_pos.mpr h3
    simp [CubeWorker.solve, h1, h2, hl]
  · intro h1 h2
    simp [CubeWorker.solve, h1, h2]
  · intro h1 h2
    simp [CubeWorker.solve, h1, h2]
  · simp [CubeWorker.solve]

/-- Witness for C1: with no known failed cubes and a solver answering
`SAT`, solving the single cube `[1]` ends `SOLVED` with result `SAT`. -/
theorem cubeWorker_solve_spec_witness :
    CubeWorker.solve (fun _ => SolverOutcome.sat) [⟨[1]⟩]
      ⟨WorkerState.WORKING, SatResult.UNKNOWN, []⟩ =
      ⟨WorkerState.SOLVED, SatResult.SAT, []⟩ :=
  (cubeWorker_solve_spec (fun _ => SolverOutcome.sat)
    ⟨WorkerState.WORKING, SatResult.UNKNOWN, []⟩ ⟨[1]⟩ [] [1]).2.1 rfl rfl

/-! ## C2: one generator iteration on a present cube -/

/-- C2: in `DynamicCubeGeneratorThread::generate` with a cube present:
a checker answer `UNSAT (20)` with no failed path literal publishes the
`UNSAT` verdict without proceeding to lookahead; `UNSAT` with a nonempty
failed-assumption subset of the path reports that set and stops; when
the checker admits the cube (`10`) and lookahead returns `0` without an
interruption, final status `10` yields the `SAT` verdict, status `20`
with a nonempty failed-assumption set reports that set, and status `20`
with an empty set yields the `UNSAT` verdict. -/
theorem dynamicCubeGenerator_generate_spec (c : Cube)
    (checkerFailed solverFailed : Int → Bool) (look finalStatus : Int)
    (interrupted : Bool) (st : GenSt) :
    (c.getPath.filter (fun l => checkerFailed l) = [] →
      DynamicCubeGeneratorThread.generate (some c) 20 checkerFailed look
          interrupted finalStatus solverFailed st =
        { st with result := SatResult.UNSAT })
    ∧ (c.getPath.filter (fun l => checkerFailed l) ≠ [] →
      DynamicCubeGeneratorThread.generate (some c) 20 checkerFailed look
          interrupted finalStatus solverFailed st =
        { st with failed := some (c.getPath.filter (fun l => checkerFailed l)) })
    ∧ (DynamicCubeGeneratorThread.generate (some c) 10 checkerFailed 0
          false 10 solverFailed st =
        { st with split_literal := 0, result := SatResult.SAT })
    ∧ (c.getPath.filter (fun l => solverFailed l) ≠ [] →
      DynamicCubeGeneratorThread.generate (some c) 10 checkerFailed 0
          false 20 solverFailed st =
        { st with split_literal := 0,
                  failed := some (c.getPath.filter (fun l => solverFailed l)) })
    ∧ (c.getPath.filter (fun l => solverFailed l) = [] →
      DynamicCubeGeneratorThread.generate (some c) 10 checkerFailed 0
          false 20 solverFailed st =
        { st with split_literal := 0, result := SatResult.UNSAT }) := by
  refine ⟨?_, ?_, ?_, ?_, ?_⟩
  · intro h
    simp [DynamicCubeGeneratorThread.generate, h]
  · intro h
    simp [DynamicCubeGeneratorThread.generate, h]
  · simp [DynamicCubeGeneratorThread.generate]
  · intro h
    have hl : (c.getPath.filter (fun l => solverFailed l)).length > 0 :=
      List.length_pos.mpr h
    simp [DynamicCubeGeneratorThread.generate, hl]
  · intro h
    simp [DynamicCubeGeneratorThread.generate, h]

/-- Witness for C2: a checker answer `20` on the cube `[1]` with no
failed path literal publishes the `UNSAT` verdict. -/
theorem dynamicCubeGenerator_generate_spec_witness :
    DynamicCubeGeneratorThread.generate (some ⟨[1]⟩) 20 (fun _ => false) 7
      true 0 (fun _ => false) ⟨SatResult.UNKNOWN, 0, none⟩ =
      ⟨SatResult.UNSAT, 0, none⟩ :=
  (dynamicCubeGenerator_generate_spec ⟨[1]⟩ (fun _ => false) (fun _ => false)
    7 0 true ⟨SatResult.UNKNOWN, 0, none⟩).1 rfl

/-! ## C9: serialization round trip -/

/-- Parsing a sentinel-terminated block followed by a rest recovers the
accumulated cube and continues on the rest, provided the block carries no
sentinel literal. -/
theorem unserializeCubesAux_append (path rest acc : List Int)
    (h : ∀ l ∈ path, l ≠ 0) :
    unserializeCubesAux (path ++ 0 :: rest) acc =
      ⟨acc ++ path⟩ :: unserializeCubesAux rest [] := by
  induction path generalizing acc with
  | nil => simp [unserializeCubesAux]
  | cons x xs ih =>
      have hx : x ≠ 0 := h x (by simp)
      have hxs : ∀ l ∈ xs, l ≠ 0 := fun l hl => h l (by simp [hl])
      simp only [List.cons_append, unserializeCubesAux, if_neg hx,
        List.append_eq]
      rw [ih (acc ++ [x]) hxs]
      simp

/-- C9: for every list of cubes whose literals are all nonzero,
unserializing the serialization (a flat integer stream in which each
cube is terminated by a sentinel `0`) yields the original list. -/
theorem serializeCubes_roundTrip (cubes : List Cube)
    (h : ∀ c ∈ cubes, ∀ l ∈ c.path, l ≠ 0) :
    unserializeCubes (serializeCubes cubes) = cubes := by
  induction cubes with
  | nil => rfl
  | cons c cs ih =>
      have hc : ∀ l ∈ c.path, l ≠ 0 := fun l hl => h c (by simp) l hl
      have hcs : ∀ d ∈ cs, ∀ l ∈ d.path, l ≠ 0 :=
        fun d hd l hl => h d (by simp [hd]) l hl
      have hser : serializeCubes (c :: cs) =
          c.path ++ 0 :: serializeCubes cs := by
        simp [serializeCubes]
      rw [unserializeCubes, hser, unserializeCubesAux_append c.path _ [] hc]
      rw [List.nil_append]
      have : (⟨c.path⟩ : Cube) = c := rfl
      rw [this]
      exact congrArg (c :: ·) (ih hcs)

/-- Witness for C9: round trip on the concrete cube list `[[1,2],[-3]]`. -/
theorem serializeCubes_roundTrip_witness :
    unserializeCubes (serializeCubes [⟨[1, 2]⟩, ⟨[-3]⟩]) =
      [⟨[1, 2]⟩, ⟨[-3]⟩] :=
  serializeCubes_roundTrip [⟨[1, 2]⟩, ⟨[-3]⟩] (by decide)

/-! ## C6: interrupt winning against initialization -/

/-- C6: when `appl_interrupt` runs on a `BaseCubeSatJob` before its
initialization, the subsequent `appl_initialize` returns `false`, the
cube solving library is never constructed, and `appl_isDestructible`
returns `true` immediately afterwards. -/
theorem cubeJob_interrupt_before_init (f : CubeJobFlags)
    (h : f.isInitialized = false) :
    (BaseCubeSatJob.appl_initialize (BaseCubeSatJob.appl_interrupt f)).1 = false
    ∧ (BaseCubeSatJob.appl_initialize
        (BaseCubeSatJob.appl_interrupt f)).2.libConstructed = f.libConstructed
    ∧ BaseCubeSatJob.appl_isDestructible
        (BaseCubeSatJob.appl_initialize (BaseCubeSatJob.appl_interrupt f)).2 =
        true := by
  simp [BaseCubeSatJob.appl_interrupt, BaseCubeSatJob.appl_initialize,
    BaseCubeSatJob.appl_isDestructible, h]

/-- Witness for C6: the fresh flag state (nothing initialized, nothing
aborted) with an interrupt applied first. -/
theorem cubeJob_interrupt_before_init_witness :
    (BaseCubeSatJob.appl_initialize
      (BaseCubeSatJob.appl_interrupt ⟨false, false, false, false⟩)).1 = false
    ∧ (BaseCubeSatJob.appl_initialize
        (BaseCubeSatJob.appl_interrupt
          ⟨false, false, false, false⟩)).2.libConstructed = false
    ∧ BaseCubeSatJob.appl_isDestructible
        (BaseCubeSatJob.appl_initialize
          (BaseCubeSatJob.appl_interrupt ⟨false, false, false, false⟩)).2 =
        true :=
  cubeJob_interrupt_before_init ⟨false, false, false, false⟩ rfl

/-! ## C10: demand override before initialization -/

/-- C10: `BaseCubeSatJob::getDemand` returns `1` for every previous
volume and every time while the initialized flag is still `false`,
overriding the base demand function. -/
theorem baseCubeSatJob_getDemand_uninit (f : CubeJobFlags) (j : Job)
    (prev : Int) (t : ℚ) (h : f.isInitialized = false) :
    BaseCubeSatJob.getDemand f j prev t = 1 := by
  simp [BaseCubeSatJob.getDemand, h]

/-- Witness for C10: the uninitialized flags with the demand-curve job at
a time where the base demand would be `3`. -/
theorem baseCubeSatJob_getDemand_uninit_witness :
    BaseCubeSatJob.getDemand ⟨false, false, false, false⟩ demandJob 5 2 = 1 :=
  baseCubeSatJob_getDemand_uninit ⟨false, false, false, false⟩ demandJob 5 2 rfl

/-! ## C5: effective job priority -/

/-- C5: the priority of the constructed `JobDescription` is
`userPrio * jobPrio` (job-file priority defaulting to `1.0`) exactly when
jitter is disabled, and `userPrio * jobPrio * f` for a factor
`f ∈ [0.99, 1.01]` when jitter is enabled and the random draw `r` lies in
`[0, 1)`. -/
theorem jobFileAdapter_priority_spec (u : ℚ) (p : Option ℚ) (r : ℚ) :
    JobFileAdapter.effectivePriority u p false r = u * p.getD 1
    ∧ (0 ≤ r → r < 1 →
        ∃ f, JobFileAdapter.effectivePriority u p true r = u * p.getD 1 * f
          ∧ 99 / 100 ≤ f ∧ f ≤ 101 / 100) := by
  constructor
  · simp [JobFileAdapter.effectivePriority]
  · intro h0 h1
    refine ⟨99 / 100 + r / 100, by simp [JobFileAdapter.effectivePriority],
      by linarith, by linarith⟩

/-- Witness for C5: user priority `2`, job priority `1/2`, jitter
enabled with random draw `1/2`. -/
theorem jobFileAdapter_priority_spec_witness :
    ∃ f, JobFileAdapter.effectivePriority 2 (some (1 / 2)) true (1 / 2) =
        2 * (Option.getD (some (1 / 2)) 1) * f
      ∧ 99 / 100 ≤ f ∧ f ≤ 101 / 100 :=
  (jobFileAdapter_priority_spec 2 (some (1 / 2)) (1 / 2)).2
    (by norm_num) (by norm_num)

/-! ## C4: interrupt on STANDBY, suspend on SUSPENDED -/

/-- Counterexample for C4: `Job::interrupt` asserts the `ACTIVE` state,
so calling it on a `STANDBY` job fails the assertion (embedded as `none`)
instead of being a no-op that returns with the job unchanged. -/
theorem job_interrupt_standby_counterexample :
    Job.interrupt standbyJob = none
    ∧ standbyJob.state = JobState.STANDBY := ⟨rfl, rfl⟩

/-- C4 (amended): calling `interrupt()` on a `STANDBY` job fails the
programmed `ACTIVE`-state assertion rather than returning as a no-op;
likewise `suspend()` on a `SUSPENDED` job fails its assertion, which the
spec sentence already allows. -/
theorem job_interrupt_standby_asserts (j k : Job)
    (hj : j.state = JobState.STANDBY) (hk : k.state = JobState.SUSPENDED) :
    Job.interrupt j = none ∧ Job.suspend k = none := by
  constructor
  · simp [Job.interrupt, hj]
  · simp [Job.suspend, hk]

/-- Witness for C4: the concrete `STANDBY` and `SUSPENDED` jobs. -/
theorem job_interrupt_standby_asserts_witness :
    Job.interrupt standbyJob = none ∧ Job.suspend suspendedJob = none :=
  job_interrupt_standby_asserts standbyJob suspendedJob rfl rfl

/-! ## C8: what start sets -/

/-- Counterexample for C8: a job activated at time `5`, stopped, and
started again at time `9` keeps its original activation time `5`;
`Job::start` re-sets `_time_of_activation` only when it is not yet
positive, contradicting the claim that every start sets it to the
current time. -/
theorem job_start_activation_counterexample :
    ((Job.stop activeJob5).bind
        (fun j2 => Job.start 0 j2 descr0 9)).map Job.time_of_activation =
      some 5
    ∧ (5 : ℚ) ≠ 9 := by
  constructor
  · rfl
  · norm_num

/-- C8 (amended): every `start(payload)` on an `INACTIVE` job
deserializes the description, sets the job priority from the
description, sets `volume = 1` and activates the job, but sets the
activation time to the current time only when no positive activation
time is recorded yet; a start that follows a stop of the same job keeps
the original activation time. -/
theorem job_start_spec (L : Int) (j : Job) (d : JobDescription) (now : ℚ)
    (h : j.state = JobState.INACTIVE) :
    ∃ j2, Job.start L j d now = some j2
      ∧ j2.has_description = true
      ∧ j2.description = some d
      ∧ j2.priority = d.priority
      ∧ j2.volume = 1
      ∧ j2.time_of_activation =
          (if j.time_of_activation ≤ 0 then now else j.time_of_activation)
      ∧ j2.state = JobState.ACTIVE := by
  rw [Job.start, if_pos h]
  exact ⟨_, rfl, rfl, rfl, rfl, rfl, rfl, rfl⟩

/-! ## Demand function helper lemmas -/

/-- A job that is not `ACTIVE` keeps the previous volume. -/
theorem getDemand_not_active (j : Job) (prev : Int) (t : ℚ)
    (h : j.state ≠ JobState.ACTIVE) : j.getDemand prev t = prev := by
  simp [Job.getDemand, h]

/-- With a non-positive growth period the demand is `commSize`,
clamped by a positive `_max_demand`. -/
theorem getDemand_growth_nonpos (j : Job) (prev : Int) (t : ℚ)
    (h : j.state = JobState.ACTIVE) (hg : j.growth_period ≤ 0) :
    j.getDemand prev t =
      if j.max_demand > 0 then min j.commSize j.max_demand
      else j.commSize := by
  simp [Job.getDemand, h, hg]

/-- The discrete growth branch of `Job::getDemand`. -/
theorem getDemand_discrete (j : Job) (prev : Int) (t : ℚ)
    (h : j.state = JobState.ACTIVE) (hg : 0 < j.growth_period)
    (ha : 0 < j.time_of_activation) (hc : j.continuous_growth = false) :
    j.getDemand prev t =
      if j.max_demand > 0
      then min (min j.commSize ((2 : Int) ^
          (⌊(t - j.time_of_activation) / j.growth_period⌋ + 1).toNat - 1))
        j.max_demand
      else min j.commSize ((2 : Int) ^
          (⌊(t - j.time_of_activation) / j.growth_period⌋ + 1).toNat - 1) := by
  rw [Job.getDemand, if_pos h, if_neg hg.not_le, if_neg ha.not_le, hc]
  simp only [Bool.not_false, if_pos]

/-- The continuous growth branch of `Job::getDemand`. -/
theorem getDemand_continuous (j : Job) (prev : Int) (t : ℚ)
    (h : j.state = JobState.ACTIVE) (hg : 0 < j.growth_period)
    (ha : 0 < j.time_of_activation) (hc : j.continuous_growth = true) :
    j.getDemand prev t =
      if j.max_demand > 0
      then min (min j.commSize (⌊(2 : ℝ) ^
          ((((t - j.time_of_activation) / j.growth_period : ℚ) : ℝ) + 1)⌋ - 1))
        j.max_demand
      else min j.commSize (⌊(2 : ℝ) ^
          ((((t - j.time_of_activation) / j.growth_period : ℚ) : ℝ) + 1)⌋ - 1) := by
  rw [Job.getDemand, if_pos h, if_neg hg.not_le, if_neg ha.not_le, hc]
  simp only [Bool.not_true, Bool.false_eq_true, if_false]

/-- The integer floor of `2^(k+1)` at a natural exponent. -/
theorem floor_two_rpow (k : ℕ) :
    ⌊(2 : ℝ) ^ ((k : ℝ) + 1)⌋ = 2 ^ (k + 1) := by
  have h1 : ((k : ℝ) + 1) = ((k + 1 : ℕ) : ℝ) := by push_cast; ring
  rw [h1, Real.rpow_natCast]
  have h2 : ((2 : ℝ) ^ (k + 1)) = (((2 ^ (k + 1) : ℤ)) : ℝ) := by
    push_cast; ring
  rw [h2, Int.floor_intCast]

/-- The continuous growth branch at a whole number of periods. -/
theorem getDemand_continuous_nat (j : Job) (prev : Int) (t : ℚ) (k : ℕ)
    (h : j.state = JobState.ACTIVE) (hg : 0 < j.growth_period)
    (ha : 0 < j.time_of_activation) (hc : j.continuous_growth = true)
    (hk : (t - j.time_of_activation) / j.growth_period = (k : ℚ)) :
    j.getDemand prev t =
      if j.max_demand > 0
      then min (min j.commSize ((2 : Int) ^ (k + 1) - 1)) j.max_demand
      else min j.commSize ((2 : Int) ^ (k + 1) - 1) := by
  rw [getDemand_continuous j prev t h hg ha hc, hk]
  have e : (((k : ℚ)) : ℝ) + 1 = ((k : ℝ)) + 1 := by push_cast; ring
  rw [e, floor_two_rpow k]

/-- The demand curve of the spec scenario at whole ages `0, 1, 2, 7`. -/
theorem demandJob_eval (prev : Int) :
    Job.getDemand demandJob prev 1 = 1
    ∧ Job.getDemand demandJob prev 2 = 3
    ∧ Job.getDemand demandJob prev 3 = 7
    ∧ Job.getDemand demandJob prev 8 = 100 := by
  refine ⟨?_, ?_, ?_, ?_⟩
  · rw [getDemand_continuous_nat demandJob prev 1 0 rfl
      (by norm_num [demandJob]) (by norm_num [demandJob]) rfl
      (by norm_num [demandJob])]
    norm_num [demandJob]
  · rw [getDemand_continuous_nat demandJob prev 2 1 rfl
      (by norm_num [demandJob]) (by norm_num [demandJob]) rfl
      (by norm_num [demandJob])]
    norm_num [demandJob]
  · rw [getDemand_continuous_nat demandJob prev 3 2 rfl
      (by norm_num [demandJob]) (by norm_num [demandJob]) rfl
      (by norm_num [demandJob])]
    norm_num [demandJob]
  · rw [getDemand_continuous_nat demandJob prev 8 7 rfl
      (by norm_num [demandJob]) (by norm_num [demandJob]) rfl
      (by norm_num [demandJob])]
    norm_num [demandJob]

/-- Clamping with `commSize` and a positive `_max_demand` is monotone in
the raw growth value. -/
theorem clamp_mono (cs maxd V1 V2 : Int) (hV : V1 ≤ V2) :
    (if maxd > 0 then min (min cs V1) maxd else min cs V1)
    ≤ (if maxd > 0 then min (min cs V2) maxd else min cs V2) := by
  split_ifs with hm
  · exact min_le_min (min_le_min (le_refl cs) hV) (le_refl maxd)
  · exact min_le_min (le_refl cs) hV

/-- A demand strictly below both clamps grows strictly with the raw
growth value. -/
theorem clamp_strict_mono (cs maxd d V1 V2 : Int)
    (hd : d = (if maxd > 0 then min (min cs V1) maxd else min cs V1))
    (hcs : d < cs) (hmd : maxd ≤ 0 ∨ d < maxd) (hV : V1 < V2) :
    d < (if maxd > 0 then min (min cs V2) maxd else min cs V2) := by
  have hdV1 : d ≤ V1 := by
    subst hd
    split_ifs with hm
    · exact le_trans (min_le_left _ _) (min_le_right _ _)
    · exact min_le_right _ _
  have hdV2 : d < V2 := lt_of_le_of_lt hdV1 hV
  split_ifs with hm
  · rcases hmd with h1 | h1
    · omega
    · exact lt_min (lt_min hcs hdV2) h1
  · exact lt_min hcs hdV2

/-- The raw discrete growth value strictly increases from one whole
period to the next. -/
theorem pow_floor_succ_strict (n : ℤ) (hn : 0 ≤ n) :
    (2 : Int) ^ (n + 1).toNat - 1 < (2 : Int) ^ (n + 1 + 1).toNat - 1 := by
  have h1 : (n + 1).toNat < (n + 1 + 1).toNat := by omega
  have h2 := pow_lt_pow_right₀ (by norm_num : (1 : Int) < 2) h1
  omega

/-- The raw continuous growth value strictly increases from one growth
period to the next: doubling `2^(q+1) ≥ 2` moves its floor up. -/
theorem floor_rpow_succ_strict (q : ℝ) (hq : 0 ≤ q) :
    ⌊(2 : ℝ) ^ (q + 1)⌋ - 1 < ⌊(2 : ℝ) ^ (q + 1 + 1)⌋ - 1 := by
  have hx0 : (2 : ℝ) ≤ (2 : ℝ) ^ (q + 1) := by
    have h := Real.rpow_le_rpow_of_exponent_le one_le_two
      (by linarith : (1 : ℝ) ≤ q + 1)
    rwa [Real.rpow_one] at h
  have hfl2 : (2 : ℤ) ≤ ⌊(2 : ℝ) ^ (q + 1)⌋ :=
    Int.le_floor.mpr (by exact_mod_cast hx0)
  have hsplit : (2 : ℝ) ^ (q + 1 + 1) = (2 : ℝ) ^ (q + 1) * 2 := by
    rw [Real.rpow_add (by norm_num : (0 : ℝ) < 2) (q + 1) 1, Real.rpow_one]
  have hfl : 2 * ⌊(2 : ℝ) ^ (q + 1)⌋ ≤ ⌊(2 : ℝ) ^ (q + 1 + 1)⌋ := by
    rw [hsplit]
    apply Int.le_floor.mpr
    have hfloor := Int.floor_le ((2 : ℝ) ^ (q + 1))
    push_cast
    linarith
  linarith

/-- The floor of `2^(3/2)` is `2`. -/
theorem floor_two_rpow_three_halves : ⌊(2 : ℝ) ^ ((3 : ℝ) / 2)⌋ = 2 := by
  have hle : (2 : ℝ) ≤ (2 : ℝ) ^ ((3 : ℝ) / 2) := by
    have h := Real.rpow_le_rpow_of_exponent_le one_le_two
      (by norm_num : (1 : ℝ) ≤ 3 / 2)
    rwa [Real.rpow_one] at h
  have hx : (0 : ℝ) ≤ (2 : ℝ) ^ ((3 : ℝ) / 2) :=
    Real.rpow_nonneg (by norm_num) _
  have hsq : ((2 : ℝ) ^ ((3 : ℝ) / 2)) ^ (2 : ℕ) = 8 := by
    rw [← Real.rpow_natCast ((2 : ℝ) ^ ((3 : ℝ) / 2)) 2,
      ← Real.rpow_mul (by norm_num : (0 : ℝ) ≤ 2)]
    rw [show (3 : ℝ) / 2 * ((2 : ℕ) : ℝ) = ((3 : ℕ) : ℝ) by push_cast; ring]
    rw [Real.rpow_natCast]
    norm_num
  have hlt : (2 : ℝ) ^ ((3 : ℝ) / 2) < 3 := by nlinarith
  refine Int.floor_eq_iff.mpr ⟨?_, ?_⟩
  · push_cast
    exact hle
  · push_cast
    linarith

/-- The spec-scenario demand at the half-period age `1/2` is still `1`. -/
theorem demandJob_eval_half : Job.getDemand demandJob 5 (3 / 2) = 1 := by
  rw [getDemand_continuous demandJob 5 (3 / 2) rfl
    (by norm_num [demandJob]) (by norm_num [demandJob]) rfl]
  have e : ((((3 / 2 : ℚ) - demandJob.time_of_activation) /
      demandJob.growth_period : ℚ) : ℝ) + 1 = (3 : ℝ) / 2 := by
    rw [show ((3 / 2 : ℚ) - demandJob.time_of_activation) /
        demandJob.growth_period = (1 / 2 : ℚ) by norm_num [demandJob]]
    push_cast
    norm_num
  rw [e, floor_two_rpow_three_halves]
  norm_num [demandJob]

/-- Witness for C8: starting a fresh `INACTIVE` job at time `9` records
activation time `9`. -/
theorem job_start_spec_witness :
    ∃ j2, Job.start 0 freshJob descr0 9 = some j2
      ∧ j2.has_description = true
      ∧ j2.description = some descr0
      ∧ j2.priority = descr0.priority
      ∧ j2.volume = 1
      ∧ j2.time_of_activation =
          (if freshJob.time_of_activation ≤ 0
            then (9 : ℚ) else freshJob.time_of_activation)
      ∧ j2.state = JobState.ACTIVE :=
  job_start_spec 0 freshJob descr0 9 rfl

/-! ## C3: the demand formula -/

/-- C3: `Job::getDemand` returns the previous volume when the job is not
`ACTIVE`; when `ACTIVE` with a non-positive growth period it returns
`commSize`; otherwise, with `p = (t − t_activation) / growth_period` and
a positive activation time, it returns `min(commSize, (1 << (⌊p⌋+1)) − 1)`
in discrete mode and `min(commSize, 2^(p+1) − 1)` in continuous mode
(stated at whole periods `p = k`); in every `ACTIVE` branch a positive
`max_demand` clamps the result. With `growth_period = 1`, continuous
growth, `commSize = 100` and `max_demand = 0`, the demand at ages
`0, 1, 2, 7` is `1, 3, 7, 100`. -/
theorem job_getDemand_formula (j : Job) (prev : Int) (t : ℚ) (k : ℕ) :
    (j.state ≠ JobState.ACTIVE → j.getDemand prev t = prev)
    ∧ (j.state = JobState.ACTIVE → j.growth_period ≤ 0 →
        j.getDemand prev t =
          if j.max_demand > 0 then min j.commSize j.max_demand
          else j.commSize)
    ∧ (j.state = JobState.ACTIVE → 0 < j.growth_period →
        0 < j.time_of_activation → j.continuous_growth = false →
        j.getDemand prev t =
          if j.max_demand > 0
          then min (min j.commSize ((2 : Int) ^
              (⌊(t - j.time_of_activation) / j.growth_period⌋ + 1).toNat - 1))
            j.max_demand
          else min j.commSize ((2 : Int) ^
              (⌊(t - j.time_of_activation) / j.growth_period⌋ + 1).toNat - 1))
    ∧ (j.state = JobState.ACTIVE → 0 < j.growth_period →
        0 < j.time_of_activation → j.continuous_growth = true →
        (t - j.time_of_activation) / j.growth_period = (k : ℚ) →
        j.getDemand prev t =
          if j.max_demand > 0
          then min (min j.commSize ((2 : Int) ^ (k + 1) - 1)) j.max_demand
          else min j.commSize ((2 : Int) ^ (k + 1) - 1))
    ∧ (Job.getDemand demandJob prev 1 = 1
       ∧ Job.getDemand demandJob prev 2 = 3
       ∧ Job.getDemand demandJob prev 3 = 7
       ∧ Job.getDemand demandJob prev 8 = 100) :=
  ⟨fun h => getDemand_not_active j prev t h,
   fun h hg => getDemand_growth_nonpos j prev t h hg,
   fun h hg ha hc => getDemand_discrete j prev t h hg ha hc,
   fun h hg ha hc hk => getDemand_continuous_nat j prev t k h hg ha hc hk,
   demandJob_eval prev⟩

/-- Witness for C3: the spec demand curve at age `7` evaluates to `100`
through the continuous branch at `k = 7` whole periods. -/
theorem job_getDemand_formula_witness : Job.getDemand demandJob 5 8 = 100 := by
  have h := (job_getDemand_formula demandJob 5 8 7).2.2.2.1 rfl
    (by norm_num [demandJob]) (by norm_num [demandJob]) rfl
    (by norm_num [demandJob])
  rw [h]
  norm_num [demandJob]

/-! ## C7: monotonicity of the demand -/

/-- Counterexample for C7: in the spec demand-curve configuration the
demand at times `1` and `3/2` (ages `0` and `1/2`) is `1` in both cases,
although `1 < 3/2` and the demand `1` is still strictly below `commSize`
with no `max_demand` clamp; the continuous-mode demand is a step
function of `t`, so it is not strictly increasing in `t` before the
clamps are hit. -/
theorem job_getDemand_not_strict_counterexample :
    (1 : ℚ) < 3 / 2
    ∧ Job.getDemand demandJob 5 1 = 1
    ∧ Job.getDemand demandJob 5 (3 / 2) = 1
    ∧ Job.getDemand demandJob 5 1 < demandJob.commSize
    ∧ demandJob.max_demand ≤ 0 := by
  refine ⟨by norm_num, (demandJob_eval 5).1, demandJob_eval_half, ?_,
    by norm_num [demandJob]⟩
  rw [(demandJob_eval 5).1]
  norm_num [demandJob]

/-- C7 (amended): for every `ACTIVE` job with positive activation time,
`getDemand` is nondecreasing in `t` over times at or after activation,
and it strictly increases across one whole growth period as long as the
demand is still strictly below `commSize` and below a positive
`max_demand`. -/
theorem job_getDemand_monotone (j : Job) (prev : Int) (t1 t2 : ℚ)
    (h : j.state = JobState.ACTIVE) (ha : 0 < j.time_of_activation) :
    (j.time_of_activation ≤ t1 → t1 ≤ t2 →
      j.getDemand prev t1 ≤ j.getDemand prev t2)
    ∧ (j.time_of_activation ≤ t1 →
        j.getDemand prev t1 < j.commSize →
        (j.max_demand ≤ 0 ∨ j.getDemand prev t1 < j.max_demand) →
        j.getDemand prev t1 < j.getDemand prev (t1 + j.growth_period)) := by
  constructor
  · intro ht1 h12
    by_cases hg : j.growth_period ≤ 0
    · rw [getDemand_growth_nonpos j prev t1 h hg,
        getDemand_growth_nonpos j prev t2 h hg]
    · push_neg at hg
      have hp : (t1 - j.time_of_activation) / j.growth_period
          ≤ (t2 - j.time_of_activation) / j.growth_period :=
        (div_le_div_iff_of_pos_right hg).mpr (by linarith)
      cases hcont : j.continuous_growth
      · rw [getDemand_discrete j prev t1 h hg ha hcont,
          getDemand_discrete j prev t2 h hg ha hcont]
        apply clamp_mono
        have hfl := Int.floor_mono hp
        have hn : (⌊(t1 - j.time_of_activation) / j.growth_period⌋ + 1).toNat
            ≤ (⌊(t2 - j.time_of_activation) / j.growth_period⌋ + 1).toNat :=
          Int.toNat_le_toNat (by omega)
        have hpow := pow_le_pow_right₀ (by norm_num : (1 : Int) ≤ 2) hn
        linarith
      · rw [getDemand_continuous j prev t1 h hg ha hcont,
          getDemand_continuous j prev t2 h hg ha hcont]
        apply clamp_mono
        have hq : ((((t1 - j.time_of_activation) / j.growth_period : ℚ)) : ℝ) + 1
            ≤ ((((t2 - j.time_of_activation) / j.growth_period : ℚ)) : ℝ) + 1 :=
          add_le_add_right (by exact_mod_cast hp) 1
        have hfl := Int.floor_mono
          (Real.rpow_le_rpow_of_exponent_le one_le_two hq)
        linarith
  · intro ht1 hcs hmd
    by_cases hg : j.growth_period ≤ 0
    · exfalso
      rw [getDemand_growth_nonpos j prev t1 h hg] at hcs hmd
      rcases hmd with h1 | h1
      · rw [if_neg (by omega : ¬j.max_demand > 0)] at hcs
        exact lt_irrefl _ hcs
      · by_cases hm : j.max_demand > 0
        · rw [if_pos hm] at hcs h1
          rcases min_choice j.commSize j.max_demand with hmin | hmin
          · rw [hmin] at hcs
            exact lt_irrefl _ hcs
          · rw [hmin] at h1
            exact lt_irrefl _ h1
        · rw [if_neg hm] at hcs
          exact lt_irrefl _ hcs
    · push_neg at hg
      have hp2 : (t1 + j.growth_period - j.time_of_activation) /
          j.growth_period
          = (t1 - j.time_of_activation) / j.growth_period + 1 := by
        field_simp
        ring
      have hp0 : 0 ≤ (t1 - j.time_of_activation) / j.growth_period :=
        div_nonneg (by linarith) hg.le
      cases hcont : j.continuous_growth
      · rw [getDemand_discrete j prev t1 h hg ha hcont] at hcs hmd ⊢
        rw [getDemand_discrete j prev (t1 + j.growth_period) h hg ha hcont,
          hp2, Int.floor_add_one]
        exact clamp_strict_mono j.commSize j.max_demand _ _ _ rfl hcs hmd
          (pow_floor_succ_strict _ (Int.floor_nonneg.mpr hp0))
      · rw [getDemand_continuous j prev t1 h hg ha hcont] at hcs hmd ⊢
        rw [getDemand_continuous j prev (t1 + j.growth_period) h hg ha hcont,
          hp2]
        have hq2 : (((((t1 - j.time_of_activation) / j.growth_period + 1) :
            ℚ)) : ℝ) + 1
            = ((((t1 - j.time_of_activation) / j.growth_period : ℚ)) : ℝ)
              + 1 + 1 := by
          push_cast
          ring
        rw [hq2]
        exact clamp_strict_mono j.commSize j.max_demand _ _ _ rfl hcs hmd
          (floor_rpow_succ_strict _ (by exact_mod_cast hp0))

/-- Witness for C7: in the spec demand-curve configuration the demand at
time `1` is at most the demand at time `2`, and strictly below the
demand one growth period later. -/
theorem job_getDemand_monotone_witness :
    Job.getDemand demandJob 5 1 ≤ Job.getDemand demandJob 5 2
    ∧ Job.getDemand demandJob 5 1 <
        Job.getDemand demandJob 5 (1 + demandJob.growth_period) := by
  have h := job_getDemand_monotone demandJob 5 1 2 rfl
    (by norm_num [demandJob])
  refine ⟨h.1 (by norm_num [demandJob]) (by norm_num), ?_⟩
  exact h.2 (by norm_num [demandJob])
    (by rw [(demandJob_eval 5).1]; norm_num [demandJob])
    (Or.inl (by norm_num [demandJob]))
